import Mathlib

/-!
Verification of the iNaturalist species-data collection pipeline
(`inat_species_data.py`): a shallow embedding of its pure logic and of its
effectful loops (pagination, caching, rate gating) as explicit
state-passing functions, together with theorems settling the specified
properties.

Conventions of the embedding:
* Python exceptions are modelled with `Except PyErr`;
* the remote service is an oracle carried in an environment structure
  (one function per endpoint, indexed by page number or taxon id);
* a Python dict response is `Option` - `none` stands for a falsy/empty
  dict, `some rs` for a dict whose `"results"` key holds `rs`;
* Python lists are Lean lists, Python dicts used as ordered maps are
  association lists updated in place.
-/

/- ### Configuration constants (lines 19-24 of the source) -/

def CALLS : Nat := 30

def RATE_LIMIT_PERIOD : Nat := 60

def PER_PAGE : Nat := 200

def PAGE_SIZE : Nat := PER_PAGE

def MAX_PAGES : Nat := 5

/- ### Python exceptions -/

/-- Errors a Python run can raise: `attributeError` for a missing
namespace attribute, `keyError` for a missing dict key, `other` for
exceptions raised by the remote transport. -/
inductive PyErr where
  | attributeError
  | keyError
  | other (msg : String)
deriving DecidableEq

/- ### `int(item)` - Python integer parsing of a CSV cell -/

/-- Numeric value of a digit string, most significant first. -/
def digitsToNat (cs : List Char) : Nat :=
  cs.foldl (fun n c => 10 * n + (c.toNat - '0'.toNat)) 0

/-- Core of Python `int(s)` on an already-stripped character list:
an optional sign followed by a nonempty run of digits. -/
def pyIntCore : List Char → Option Int
  | [] => none
  | '+' :: rest =>
      if rest ≠ [] ∧ rest.all Char.isDigit then some (digitsToNat rest) else none
  | '-' :: rest =>
      if rest ≠ [] ∧ rest.all Char.isDigit then some (-(digitsToNat rest : Int)) else none
  | cs =>
      if cs.all Char.isDigit then some (digitsToNat cs) else none

/-- Strip leading and trailing whitespace from a character list. -/
def stripChars (cs : List Char) : List Char :=
  ((cs.dropWhile Char.isWhitespace).reverse.dropWhile Char.isWhitespace).reverse

/-- Python `int(item)` for a CSV cell: strips surrounding whitespace and
parses an optionally signed decimal literal; `none` models the
`ValueError` raised on any other content. -/
def pyInt (s : String) : Option Int :=
  pyIntCore (stripChars s.data)

/- ### `read_id_list_from_csv_file` (source lines 345-377)

The file argument is `none` when opening raises `FileNotFoundError`
(caught: the function logs and returns the empty list) and `some rows`
when the csv reader yields `rows`, each row a list of string cells. -/

/-- Inner `for item in row` loop: append the integer value of every cell
that parses, skip the rest (`ValueError` caught by `continue`). -/
def readRowLoop (acc : List Int) (row : List String) : List Int :=
  row.foldl
    (fun acc cell =>
      match pyInt cell with
      | some n => acc ++ [n]
      | none => acc)
    acc

/-- `read_id_list_from_csv_file`: collect every integer-parsing cell of
every row into one list (a Python list, in file order); a missing file
yields the empty list. -/
def read_id_list_from_csv_file (contents : Option (List (List String))) : List Int :=
  match contents with
  | none => []
  | some rows => rows.foldl readRowLoop []

/- ### `get_month_with_most_obs` (source lines 208-231) -/

/-- The `months` list of the source, index 0 = January. -/
def monthsList : List String :=
  ["January", "February", "March", "April", "May", "June",
   "July", "August", "September", "October", "November", "December"]

/-- Python `max` over a list of non-negative counts (0 on the empty
list, which the caller excludes). -/
def pyMax (l : List Nat) : Nat := l.foldr max 0

/-- `get_month_with_most_obs`: `"No data"` when the histogram is empty
or all-zero, otherwise the month name at `histogram.index(max(histogram))`
(the first index attaining the maximum). -/
def get_month_with_most_obs (histogram : List Nat) : String :=
  if histogram.isEmpty || histogram.all (· == 0) then "No data"
  else monthsList.getD (List.indexOf (pyMax histogram) histogram) ""

/- ### `get_species_for_place` (source lines 38-109)

The argparse namespace built in `main` (lines 485-502) defines exactly
the attributes `output`, `filter` and `place_id`; the diagnostic print at
lines 70-73 formats `args.input`, an attribute that does not exist, so
evaluating that f-string raises `AttributeError`.  Each `while` iteration
re-reads the filter file, then issues one listing call; on a falsy
response dict the subscript `counts_response["results"]` raises
`KeyError`; the `if not counts_response` test sees a truthy dict on every
reachable path, so the loop leaves only via `page >= MAX_PAGES` (or an
exception). -/

/-- One element of a listing page's `results`: the nested
`result["taxon"]["id"]` and `result["count"]`. -/
structure Entry where
  taxon_id : Int
  count : Nat
deriving DecidableEq

/-- Environment of one run of the species-listing fetcher: the filter
file's rows (`none` = `FileNotFoundError`) and the service's response for
each listing page (`none` = falsy response dict, `some rs` = a dict whose
`"results"` key holds `rs`). -/
structure FetchEnv where
  filterFile : Option (List (List String))
  pages : Nat → Option (List Entry)

/-- Observable outcome of a run of `get_species_for_place`: the returned
list (or the uncaught exception), how many times the filter file was
read, and how many listing calls were issued. -/
structure FetchTrace where
  result : Except PyErr (List Entry)
  filterReads : Nat
  pageFetches : Nat

/-- The `while True` loop of `get_species_for_place`, one recursive call
per iteration.  `fuel` only bounds the recursion: it starts at
`MAX_PAGES` and the `page >= MAX_PAGES` break always fires before fuel
runs out, so the fuel-exhausted branch is unreachable. -/
def speciesLoop (env : FetchEnv) : Nat → Nat → List Entry → Nat → Nat → FetchTrace
  | 0, _, acc, reads, fetches => ⟨.ok acc, reads, fetches⟩
  | fuel + 1, page, acc, reads, fetches =>
    let filter_ids := read_id_list_from_csv_file env.filterFile
    let reads := reads + 1
    if filter_ids ≠ [] then
      -- `print(f"Filtering species by IDs from {args.input} ...")`:
      -- `args.input` does not exist, the f-string raises AttributeError.
      ⟨.error .attributeError, reads, fetches⟩
    else
      match env.pages page with
      | none =>
        -- `counts_response["results"]` on a falsy (empty) dict.
        ⟨.error .keyError, reads, fetches + 1⟩
      | some rs =>
        let results := if filter_ids ≠ [] then
            rs.filter (fun e => e.taxon_id ∈ filter_ids) else rs
        -- `if not counts_response: break` - the response dict is truthy
        -- here, so the break never fires on this path.
        let acc := acc ++ results
        if MAX_PAGES ≤ page then ⟨.ok acc, reads, fetches + 1⟩
        else speciesLoop env fuel (page + 1) acc reads (fetches + 1)

/-- `get_species_for_place`: run the pagination loop from page 1. -/
def get_species_for_place (env : FetchEnv) : FetchTrace :=
  speciesLoop env MAX_PAGES 1 [] 0 0

/- ### Phylum cache: `fetch_phyla_ids` (lines 112-138) and
`extract_taxonomy` (lines 141-205) -/

/-- The global `phyla_ids` dict: an insertion-ordered association list
from taxon id to taxon name. -/
abbrev PhylaMap := List (Nat × String)

/-- Python dict assignment `m[k] = v`: replace in place if the key
exists, else append. -/
def dictInsert (m : PhylaMap) (k : Nat) (v : String) : PhylaMap :=
  if m.any (fun p => p.1 == k) then
    m.map (fun p => if p.1 == k then (k, v) else p)
  else m ++ [(k, v)]

/-- Python `m.update(batch)` where `batch` is the dict comprehension over
a result page: assign every pair in order. -/
def dictUpdate (m : PhylaMap) (batch : List (Nat × String)) : PhylaMap :=
  batch.foldl (fun acc p => dictInsert acc p.1 p.2) m

/-- Environment of the phylum-table fetch: for each page number, either
the page's `results` (already projected to `(id, name)` pairs — an empty
list both for an empty result list and for a falsy dict, since the code
uses `response.get("results", [])`) or an exception raised by the call. -/
structure PhylaEnv where
  taxaPages : Nat → Except PyErr (List (Nat × String))

/-- The `for page in range(1, MAX_PAGES + 1)` loop of `fetch_phyla_ids`:
stops on an empty page, and any exception is caught by the surrounding
`try`, abandoning further pages and keeping what was accumulated. -/
def fetchPhylaLoop (env : PhylaEnv) : Nat → Nat → PhylaMap → PhylaMap
  | 0, _, cache => cache
  | fuel + 1, page, cache =>
    match env.taxaPages page with
    | .error _ => cache
    | .ok [] => cache
    | .ok results => fetchPhylaLoop env fuel (page + 1) (dictUpdate cache results)

/-- `fetch_phyla_ids`: paginate the rank-level-60 taxa listing into the
cache, starting from the current cache contents. -/
def fetch_phyla_ids (env : PhylaEnv) (cache : PhylaMap) : PhylaMap :=
  fetchPhylaLoop env MAX_PAGES 1 cache

/-- The hardcoded `kingdom_ids` table of `extract_taxonomy`. -/
def kingdom_ids : List (Nat × String) :=
  [(1, "Animalia"), (47126, "Plantae"), (47170, "Fungi"), (48222, "Chromista"),
   (47686, "Protozoa"), (67333, "Bacteria"), (151817, "Archaea")]

/-- Result of one `extract_taxonomy` call: the returned pair, the state
of the global `phyla_ids` cache afterwards, and how many times
`fetch_phyla_ids` was invoked (0 or 1). -/
structure TaxOut where
  kingdom : String
  phylum : String
  cache : PhylaMap
  fetchRuns : Nat
deriving DecidableEq

/-- `extract_taxonomy`: populate the phylum cache if it is empty, then
look up the kingdom from the hardcoded table at ancestor position 1 and
the phylum from the cache at ancestor position 2, each defaulting to
`"Unknown"` when the sequence is too short or the id is absent. -/
def extract_taxonomy (env : PhylaEnv) (cache : PhylaMap) (ancestor_ids : List Nat) :
    TaxOut :=
  let populated := if cache.isEmpty then (fetch_phyla_ids env cache, 1) else (cache, 0)
  let cache := populated.1
  let kingdom :=
    if 1 < ancestor_ids.length then
      ((kingdom_ids.lookup (ancestor_ids.getD 1 0)).getD "Unknown")
    else "Unknown"
  let phylum :=
    if 2 < ancestor_ids.length then
      ((cache.lookup (ancestor_ids.getD 2 0)).getD "Unknown")
    else "Unknown"
  ⟨kingdom, phylum, cache, populated.2⟩

/- ### Histogram reconciliation: `get_histogram_for_species`
(lines 250-275) and `get_histograms` (lines 278-342) -/

/-- `all(val == 0 for val in h)`. -/
def allZero (h : List Nat) : Bool := h.all (· == 0)

/-- Python `l[i] = v` with Python index semantics: a negative index
counts from the end; out of range is an `IndexError` (`none`). -/
def setPyIdx (l : List Nat) (i : Int) (v : Nat) : Option (List Nat) :=
  if 0 ≤ i ∧ i < l.length then some (l.set i.toNat v)
  else if -(l.length : Int) ≤ i ∧ i < 0 then some (l.set (i + l.length).toNat v)
  else none

/-- The `for month_str, count in histogram_data.items()` loop writing
`histogram[int(month_str) - 1] = count`; `none` when some write raises
`IndexError`. -/
def fillHistogram : List Nat → List (Int × Nat) → Option (List Nat)
  | h, [] => some h
  | h, (m, c) :: rest =>
    match setPyIdx h (m - 1) c with
    | none => none
    | some h2 => fillHistogram h2 rest

/-- `get_histogram_for_species`: convert the service's sparse
month-to-count mapping into a 12-element histogram; every exception
(a failed call, or an out-of-range month) is caught and yields the
all-zero histogram. -/
def get_histogram_for_species (resp : Except PyErr (List (Int × Nat))) : List Nat :=
  match resp with
  | .error _ => List.replicate 12 0
  | .ok items =>
    match fillHistogram (List.replicate 12 0) items with
    | some h => h
    | none => List.replicate 12 0

/-- One value of the `species_data` dict (the fields `get_histograms`
touches or prints). -/
structure SpData where
  latin_name : String
  kingdom : String
  phylum : String
  histogram : List Nat
  peak_month : String
deriving DecidableEq

/-- Environment of the histogram pass: the service's histogram response
for each taxon id (an exception models a failed call). -/
structure HistEnv where
  histResp : Nat → Except PyErr (List (Int × Nat))

/-- Observable outcome of `get_histograms`: the updated `species_data`
(in dict order), the taxa that were fetched individually but came back
all-zero (the per-species "Still no histogram data" warnings), and the
end-of-pass summary lines for species whose `peak_month` is `"No data"`. -/
structure HistOut where
  species : List (Nat × SpData)
  fetch_warnings : List Nat
  still_empty : List String

/-- The summary line `f"{taxon_id} - {latin_name} (K: {kingdom}, P: {phylum})"`. -/
def summaryLine (tid : Nat) (d : SpData) : String :=
  toString tid ++ " - " ++ d.latin_name ++ " (K: " ++ d.kingdom ++ ", P: " ++ d.phylum ++ ")"

/-- First block of `get_histograms`: the keys of the species whose
histogram is all-zero (`zero_histogram_species` in the source). -/
def zero_histogram_species (species_data : List (Nat × SpData)) : List Nat :=
  (species_data.filter (fun p => allZero p.2.histogram)).map (fun p => p.1)

/-- Second block of `get_histograms`: fetch each all-zero species
individually and replace its histogram (dict update keyed by taxon id;
keys are unique in a dict, so a keyed map is the in-place mutation). -/
def updatedSpecies (env : HistEnv) (species_data : List (Nat × SpData)) :
    List (Nat × SpData) :=
  species_data.map (fun p =>
    if p.1 ∈ zero_histogram_species species_data then
      (p.1, { p.2 with histogram := get_histogram_for_species (env.histResp p.1) })
    else p)

/-- The per-species `"WARNING: Still no histogram data"` log: taxa whose
individual fetch still produced an all-zero histogram. -/
def fetchWarnings (env : HistEnv) (species_data : List (Nat × SpData)) : List Nat :=
  (zero_histogram_species species_data).filter
    (fun tid => allZero (get_histogram_for_species (env.histResp tid)))

/-- Third block of `get_histograms`: set `peak_month` for every species. -/
def finalizedSpecies (env : HistEnv) (species_data : List (Nat × SpData)) :
    List (Nat × SpData) :=
  (updatedSpecies env species_data).map (fun p =>
    (p.1, { p.2 with peak_month := get_month_with_most_obs p.2.histogram }))

/-- The end-of-pass `still_empty_histograms` summary lines. -/
def stillEmptyLines (env : HistEnv) (species_data : List (Nat × SpData)) : List String :=
  ((finalizedSpecies env species_data).filter (fun p => p.2.peak_month == "No data")).map
    (fun p => summaryLine p.1 p.2)

/-- `get_histograms`: find the species whose histogram is all-zero,
fetch each of those individually (replacing the histogram, all-zero
again on failure), then compute `peak_month` for every species and
collect the end-of-pass warnings.  The function always returns: the only
fallible step is `get_histogram_for_species`, which catches its own
exceptions. -/
def get_histograms (env : HistEnv) (species_data : List (Nat × SpData)) : HistOut :=
  ⟨finalizedSpecies env species_data,
   fetchWarnings env species_data,
   stillEmptyLines env species_data⟩

/- ### `write_data_to_csv` sorting (lines 414-447)

`sorted(data.values(), key=lambda x: x["count"], reverse=True)` is
Python's stable sort under the descending-count order; any stable sort
for that order produces the same list, so it is embedded as the stable
insertion sort on the dict's value list (which iterates in insertion
order). -/

/-- One row as `write_data_to_csv` sees it (the fields its sort key and
the tie-break discussion need). -/
structure SpRow where
  taxon_id : Nat
  latin_name : String
  count : Nat
deriving DecidableEq

/-- The descending-count order used by `sorted(..., reverse=True)`. -/
def countGe (x y : SpRow) : Prop := y.count ≤ x.count

instance : DecidableRel countGe := fun x y => Nat.decLe y.count x.count

instance : IsTotal SpRow countGe := ⟨fun x y => Nat.le_total y.count x.count⟩

instance : IsTrans SpRow countGe := ⟨fun _ _ _ hab hbc => Nat.le_trans hbc hab⟩

/-- The sort of `write_data_to_csv`: stable, by `count` descending. -/
def sortRows (l : List SpRow) : List SpRow := List.insertionSort countGe l

/- ### Rate gate (source lines 27-35)

`rate_limited_api_call` is wrapped by `@sleep_and_retry` and
`@limits(calls=CALLS, period=RATE_LIMIT_PERIOD)`; the limiter
implementation itself is not part of this repository.

Modelled from the spec: the Rate Gate of spec section 4.1 — before
issuing a call it checks whether fewer than `CALLS` invocations occurred
in the trailing `RATE_LIMIT_PERIOD` seconds and, if not, suspends the
caller until the oldest counted call exits the window.  `gateStart req i`
is the time at which the `i`-th call starts when the caller would like to
issue call `i` at time `req i`: the first `CALLS` calls start on request,
and afterwards call `i` additionally waits until call `i - CALLS` is a
full window in the past. -/

/-- Prefix list of gate start times for the first `n` calls. -/
def gateList (req : Nat → Nat) : Nat → List Nat
  | 0 => []
  | n + 1 =>
    let prev := gateList req n
    prev ++ [if n < CALLS then req n
             else max (req n) (prev.getD (n - CALLS) 0 + RATE_LIMIT_PERIOD)]

/-- Start time of the `i`-th gated call. -/
def gateStart (req : Nat → Nat) (i : Nat) : Nat :=
  (gateList req (i + 1)).getD i 0

/- ### Concrete runs used by counterexamples and witnesses -/

/-- A service that answers every listing page with a truthy response
dict whose result list is empty, and a missing filter file. -/
def envEmptyPages : FetchEnv := ⟨none, fun _ => some []⟩

/-- A service that answers every listing page with one entry, and a
missing filter file. -/
def envOneEntry : FetchEnv := ⟨none, fun _ => some [⟨42, 7⟩]⟩

/-- A filter file whose single row is `["45"]`, over the empty-page
service. -/
def envWithFilter : FetchEnv := ⟨some [["45"]], fun _ => some []⟩

/-- A phylum-table service whose every page is a truthy response with an
empty result list: the fetch accumulates nothing. -/
def envNoPhyla : PhylaEnv := ⟨fun _ => Except.ok []⟩

/-- A histogram service that fails on every taxon. -/
def envHistFail : HistEnv := ⟨fun _ => Except.error (PyErr.other "ConnectionError")⟩

/-- A concrete species record entering the histogram pass with the
all-zero histogram every species starts with. -/
def dSeastar : SpData :=
  ⟨"Pisaster ochraceus", "Animalia", "Echinodermata", List.replicate 12 0, ""⟩

/-! ## Theorems -/

/- ### Reading the filter file -/

theorem readRowLoop_eq (row : List String) :
    ∀ acc : List Int, readRowLoop acc row = acc ++ row.filterMap pyInt := by
  induction row with
  | nil => intro acc; simp [readRowLoop]
  | cons cell rest ih =>
    intro acc
    simp only [readRowLoop, List.foldl_cons, List.filterMap_cons]
    rcases h : pyInt cell with _ | n
    · simpa [readRowLoop, h] using ih acc
    · simpa [readRowLoop, h] using ih (acc ++ [n])

theorem read_some_eq (rows : List (List String)) :
    read_id_list_from_csv_file (some rows) = rows.flatten.filterMap pyInt := by
  suffices h : ∀ acc : List Int, rows.foldl readRowLoop acc = acc ++ rows.flatten.filterMap pyInt by
    simpa [read_id_list_from_csv_file] using h []
  induction rows with
  | nil => intro acc; simp
  | cons row rest ih =>
    intro acc
    simp [List.foldl_cons, readRowLoop_eq, ih, List.filterMap_append, List.append_assoc]

/-- C10 (counterexample): the filter file `["12a","45","","45"]` does not
yield the set `{45}`: the code returns the Python list `[45, 45]`, so
duplicate values are not collapsed and the result is not a set. -/
theorem C10_counterexample :
    read_id_list_from_csv_file (some [["12a", "45", "", "45"]]) ≠ [45] ∧
    ¬ (read_id_list_from_csv_file (some [["12a", "45", "", "45"]])).Nodup := by
  constructor <;> decide

/-- C10 (amended): reading the id filter file collects every cell that
parses as an integer, in file order and with duplicates retained (a list,
not a set): the result is exactly `filterMap` of Python `int` over the
flattened rows, membership holds exactly for the parseable cells, a
missing file yields the empty list (non-fatal), and the example file
`["12a","45","","45"]` yields `[45, 45]`. -/
theorem C10_thm :
    (∀ rows : List (List String),
        read_id_list_from_csv_file (some rows) = rows.flatten.filterMap pyInt) ∧
    (∀ (rows : List (List String)) (n : Int),
        n ∈ read_id_list_from_csv_file (some rows) ↔
          ∃ cell ∈ rows.flatten, pyInt cell = some n) ∧
    read_id_list_from_csv_file none = [] ∧
    read_id_list_from_csv_file (some [["12a", "45", "", "45"]]) = [45, 45] := by
  refine ⟨read_some_eq, ?_, rfl, by decide⟩
  intro rows n
  rw [read_some_eq, List.mem_filterMap]

/- ### The pagination loop -/

theorem speciesLoop_filter_abort (env : FetchEnv)
    (hne : read_id_list_from_csv_file env.filterFile ≠ [])
    (fuel page : Nat) (acc : List Entry) (reads fetches : Nat) :
    speciesLoop env (fuel + 1) page acc reads fetches
      = ⟨.error .attributeError, reads + 1, fetches⟩ := by
  simp [speciesLoop, hne]

/-- C1 (code evaluation at the failing input): with a missing filter file
and a service whose every page is a truthy response dict carrying an
empty result list, the loop does not stop at page 1: it issues all
`MAX_PAGES` listing calls and returns normally, because the emptiness
test `if not counts_response` looks at the response dict (always truthy
here), never at the extracted result list. -/
theorem C1_thm :
    envEmptyPages.pages 1 = some [] ∧
    (get_species_for_place envEmptyPages).pageFetches = MAX_PAGES ∧
    (get_species_for_place envEmptyPages).result = Except.ok [] :=
  ⟨rfl, rfl, rfl⟩

/-- C2: whenever the filter file exists and some cell parses as an
integer, `get_species_for_place` raises an uncaught `AttributeError`
(the diagnostic f-string reads `args.input`, which the argument parser
never defines) before issuing a single listing call, hence before any
filtered entry is accumulated. -/
theorem C2_thm (env : FetchEnv) (rows : List (List String))
    (hfile : env.filterFile = some rows)
    (hcell : ∃ cell ∈ rows.flatten, (pyInt cell).isSome) :
    (get_species_for_place env).result = Except.error PyErr.attributeError ∧
    (get_species_for_place env).pageFetches = 0 := by
  have hne : read_id_list_from_csv_file env.filterFile ≠ [] := by
    rw [hfile, read_some_eq]
    obtain ⟨cell, hc, hs⟩ := hcell
    intro h
    rw [List.filterMap_eq_nil_iff] at h
    rw [h cell hc] at hs
    simp at hs
  have hrun : get_species_for_place env = ⟨.error .attributeError, 1, 0⟩ := by
    show speciesLoop env (4 + 1) 1 [] 0 0 = _
    exact speciesLoop_filter_abort env hne 4 1 [] 0 0
  rw [hrun]
  exact ⟨rfl, rfl⟩

/-- C2 (witness): a filter file whose single row is `["45"]` aborts the
run with `AttributeError` before any page is fetched. -/
theorem C2_witness :
    envWithFilter.filterFile = some [["45"]] ∧
    (∃ cell ∈ ([["45"]] : List (List String)).flatten, (pyInt cell).isSome) ∧
    ((get_species_for_place envWithFilter).result = Except.error PyErr.attributeError ∧
     (get_species_for_place envWithFilter).pageFetches = 0) :=
  ⟨rfl, ⟨"45", by decide, by decide⟩,
   C2_thm envWithFilter [["45"]] rfl ⟨"45", by decide, by decide⟩⟩

theorem speciesLoop_reads_eq_fetches (env : FetchEnv)
    (hempty : read_id_list_from_csv_file env.filterFile = []) :
    ∀ (fuel page : Nat) (acc : List Entry) (reads fetches : Nat),
      (speciesLoop env fuel page acc reads fetches).filterReads + fetches
        = (speciesLoop env fuel page acc reads fetches).pageFetches + reads ∧
      reads ≤ (speciesLoop env fuel page acc reads fetches).filterReads ∧
      (0 < fuel → reads < (speciesLoop env fuel page acc reads fetches).filterReads) := by
  intro fuel
  induction fuel with
  | zero =>
    intro page acc reads fetches
    exact ⟨Nat.add_comm _ _, le_rfl, fun h => absurd h (by omega)⟩
  | succ fuel ih =>
    intro page acc reads fetches
    rcases hp : env.pages page with _ | rs
    · simp [speciesLoop, hempty, hp]
      omega
    · by_cases hpage : MAX_PAGES ≤ page
      · simp [speciesLoop, hempty, hp, hpage]
        omega
      · simp [speciesLoop, hempty, hp, hpage]
        obtain ⟨h1, h2, h3⟩ := ih (page + 1) (acc ++ rs) (reads + 1) (fetches + 1)
        refine ⟨by omega, by omega, by omega⟩

/-- C3 (counterexample): with a missing filter file (so the run is not
aborted by the `args.input` access) and non-empty pages, a full run reads
the filter file five times — once per page — refuting "loaded exactly
once per run, no subsequent page fetch re-reads the filter file". -/
theorem C3_counterexample :
    ¬ ((get_species_for_place envOneEntry).filterReads ≤ 1) := by decide

/-- C3 (amended): the id filter list is re-loaded from the filter file at
the start of every page iteration: in any run whose filter list is empty
(the only runs that get past page 1), the number of filter-file reads
equals the number of page fetches, and is at least 1. -/
theorem C3_thm (env : FetchEnv)
    (hempty : read_id_list_from_csv_file env.filterFile = []) :
    (get_species_for_place env).filterReads = (get_species_for_place env).pageFetches ∧
    1 ≤ (get_species_for_place env).filterReads := by
  obtain ⟨h1, _, h3⟩ := speciesLoop_reads_eq_fetches env hempty MAX_PAGES 1 [] 0 0
  rw [show get_species_for_place env = speciesLoop env MAX_PAGES 1 [] 0 0 from rfl]
  exact ⟨by omega, by have := h3 (by decide); omega⟩

/-- C3 (witness): the amended statement at a concrete run. -/
theorem C3_witness :
    read_id_list_from_csv_file envEmptyPages.filterFile = [] ∧
    ((get_species_for_place envEmptyPages).filterReads
        = (get_species_for_place envEmptyPages).pageFetches ∧
     1 ≤ (get_species_for_place envEmptyPages).filterReads) :=
  ⟨rfl, C3_thm envEmptyPages rfl⟩

/- ### Phylum cache population -/

/-- C4 (counterexample): when the first population attempt accumulates
nothing (every phylum-table page is a truthy response with an empty
result list), the cache stays empty, so a second classification call
invokes the paginated fetch again: two invocations perform two fetches,
refuting "at most once in total for every run". -/
theorem C4_counterexample :
    ¬ ((extract_taxonomy envNoPhyla [] [1, 2, 3]).fetchRuns +
       (extract_taxonomy envNoPhyla
          (extract_taxonomy envNoPhyla [] [1, 2, 3]).cache [1, 2, 3]).fetchRuns ≤ 1) := by
  decide

/-- C4 (amended): population is idempotent only once the cache is
non-empty: every classification call made with a non-empty phylum cache
performs no fetch and is a pure read leaving the cache unchanged (so in a
run whose first population attempt accumulates at least one entry, the
paginated fetch runs exactly once and later calls only read); a first
attempt that accumulates nothing is retried by the next call. -/
theorem C4_thm (env : PhylaEnv) (cache : PhylaMap) (ids : List Nat)
    (hne : cache ≠ []) :
    (extract_taxonomy env cache ids).fetchRuns = 0 ∧
    (extract_taxonomy env cache ids).cache = cache := by
  have hempty : cache.isEmpty = false := by
    cases cache with
    | nil => exact absurd rfl hne
    | cons a t => rfl
  simp [extract_taxonomy, hempty]

/-- C4 (witness): the amended statement at a concrete non-empty cache. -/
theorem C4_witness :
    ([(2, "Chordata")] : PhylaMap) ≠ [] ∧
    ((extract_taxonomy envNoPhyla [(2, "Chordata")] [1, 2, 3]).fetchRuns = 0 ∧
     (extract_taxonomy envNoPhyla [(2, "Chordata")] [1, 2, 3]).cache = [(2, "Chordata")]) :=
  ⟨by decide, C4_thm envNoPhyla [(2, "Chordata")] [1, 2, 3] (by decide)⟩

/- ### Rate gate -/

theorem gateList_length (req : Nat → Nat) : ∀ n, (gateList req n).length = n := by
  intro n
  induction n with
  | zero => rfl
  | succ n ih => simp [gateList, ih]

theorem gateList_getD (req : Nat → Nat) :
    ∀ n i, i < n → (gateList req n).getD i 0 = gateStart req i := by
  intro n
  induction n with
  | zero => intro i h; omega
  | succ n ih =>
    intro i h
    by_cases hi : i < n
    · rw [show gateList req (n + 1)
          = gateList req n ++ [if n < CALLS then req n
              else max (req n) ((gateList req n).getD (n - CALLS) 0 + RATE_LIMIT_PERIOD)]
          from rfl]
      rw [List.getD_append _ _ _ _ (by rw [gateList_length]; exact hi)]
      exact ih i hi
    · have : i = n := by omega
      subst this
      rfl

theorem gateStart_eq (req : Nat → Nat) (i : Nat) :
    gateStart req i = if i < CALLS then req i
      else max (req i) (gateStart req (i - CALLS) + RATE_LIMIT_PERIOD) := by
  have hlen : (gateList req i).length = i := gateList_length req i
  have hcons : gateStart req i
      = (gateList req i ++ [if i < CALLS then req i
          else max (req i) ((gateList req i).getD (i - CALLS) 0 + RATE_LIMIT_PERIOD)]).getD i 0 :=
    rfl
  rw [hcons, List.getD_append_right _ _ _ _ (by omega), hlen]
  simp only [Nat.sub_self, List.getD_cons_zero]
  by_cases hi : i < CALLS
  · rw [if_pos hi, if_pos hi]
  · rw [if_neg hi, if_neg hi]
    rw [gateList_getD req i (i - CALLS) (by have : (30 : Nat) = CALLS := rfl; omega)]

theorem gateStart_le_succ (req : Nat → Nat)
    (hreq : ∀ a b, a ≤ b → req a ≤ req b) :
    ∀ i, gateStart req i ≤ gateStart req (i + 1) := by
  intro i
  induction i using Nat.strong_induction_on with
  | _ i ih =>
    have hC : (30 : Nat) = CALLS := rfl
    rw [gateStart_eq req i, gateStart_eq req (i + 1)]
    by_cases h1 : i + 1 < CALLS
    · rw [if_pos (by omega), if_pos h1]
      exact hreq i (i + 1) (by omega)
    · by_cases h0 : i < CALLS
      · rw [if_pos h0, if_neg h1]
        exact le_max_of_le_left (hreq i (i + 1) (by omega))
      · rw [if_neg h0, if_neg h1]
        have he : i + 1 - CALLS = (i - CALLS) + 1 := by omega
        have hih := ih (i - CALLS) (by omega)
        refine max_le_max (hreq i (i + 1) (by omega)) ?_
        rw [he]
        omega

theorem gateStart_mono (req : Nat → Nat)
    (hreq : ∀ a b, a ≤ b → req a ≤ req b) :
    ∀ i j, i ≤ j → gateStart req i ≤ gateStart req j := by
  intro i j hij
  induction j with
  | zero => have : i = 0 := by omega
            subst this; exact le_rfl
  | succ j ihj =>
    by_cases h : i ≤ j
    · exact le_trans (ihj h) (gateStart_le_succ req hreq j)
    · have : i = j + 1 := by omega
      subst this; exact le_rfl

theorem gateStart_spacing (req : Nat → Nat) (i : Nat) (h : CALLS ≤ i) :
    gateStart req (i - CALLS) + RATE_LIMIT_PERIOD ≤ gateStart req i := by
  rw [gateStart_eq req i, if_neg (by omega)]
  exact le_max_right _ _

/-- C5: the Rate Gate model never lets more than `CALLS` invocations
start within any trailing `RATE_LIMIT_PERIOD`-second window: for every
monotone request sequence, every `t` and every prefix of the call
sequence, at most `CALLS` gated start times fall in `(t, t + RATE_LIMIT_PERIOD]`. -/
theorem C5_thm (req : Nat → Nat)
    (hreq : ∀ a b, a ≤ b → req a ≤ req b) (t n : Nat) :
    ((Finset.range n).filter
      (fun i => t < gateStart req i ∧ gateStart req i ≤ t + RATE_LIMIT_PERIOD)).card
      ≤ CALLS := by
  set S := (Finset.range n).filter
      (fun i => t < gateStart req i ∧ gateStart req i ≤ t + RATE_LIMIT_PERIOD) with hS
  rcases S.eq_empty_or_nonempty with he | hne
  · rw [he]
    simp
  · have hmem := S.min'_mem hne
    set j := S.min' hne with hj
    have hsub : S ⊆ Finset.Ico j (j + CALLS) := by
      intro k hk
      rw [Finset.mem_Ico]
      refine ⟨S.min'_le k hk, ?_⟩
      by_contra hcon
      have hge : j + CALLS ≤ k := by omega
      have hjS := (Finset.mem_filter.mp hmem).2
      have hkS := (Finset.mem_filter.mp hk).2
      have h1 : gateStart req j + RATE_LIMIT_PERIOD ≤ gateStart req (j + CALLS) := by
        have hs := gateStart_spacing req (j + CALLS) (by omega)
        rwa [Nat.add_sub_cancel] at hs
      have h2 : gateStart req (j + CALLS) ≤ gateStart req k :=
        gateStart_mono req hreq _ _ hge
      omega
    calc S.card ≤ (Finset.Ico j (j + CALLS)).card := Finset.card_le_card hsub
      _ = CALLS := by rw [Nat.card_Ico]; omega

/-- C5 (witness): the bound at a concrete call sequence — 40 calls all
requested at time 0: at most `CALLS` of them start in the window `(0, 60]`. -/
theorem C5_witness :
    (∀ a b : Nat, a ≤ b → (fun _ : Nat => 0) a ≤ (fun _ : Nat => 0) b) ∧
    ((Finset.range 40).filter
      (fun i => 0 < gateStart (fun _ => 0) i ∧
                gateStart (fun _ => 0) i ≤ 0 + RATE_LIMIT_PERIOD)).card ≤ CALLS :=
  ⟨fun _ _ _ => le_rfl, C5_thm (fun _ => 0) (fun _ _ _ => le_rfl) 0 40⟩

/- ### Peak month -/

theorem pyMax_mem : ∀ l : List Nat, l ≠ [] → pyMax l ∈ l := by
  intro l
  induction l with
  | nil => intro h; exact absurd rfl h
  | cons a t ih =>
    intro _
    rcases t with _ | ⟨b, t2⟩
    · simp [pyMax]
    · have hmx : pyMax (a :: b :: t2) = max a (pyMax (b :: t2)) := rfl
      rcases max_choice a (pyMax (b :: t2)) with h | h
      · rw [hmx, h]
        exact List.mem_cons_self _ _
      · rw [hmx, h]
        exact List.mem_cons_of_mem _ (ih (by simp))

theorem indexOf_of_first (a : Nat) :
    ∀ (l : List Nat) (j : Nat), j < l.length → l.getD j 0 = a →
      (∀ k, k < j → l.getD k 0 ≠ a) → List.indexOf a l = j := by
  intro l
  induction l with
  | nil => intro j h _ _; simp at h
  | cons b t ih =>
    intro j hlt hj hmin
    rcases j with _ | j
    · simp only [List.getD_cons_zero] at hj
      rw [hj, List.indexOf_cons_self]
    · have hb : b ≠ a := by
        have h0 := hmin 0 (by omega)
        simpa using h0
      rw [List.indexOf_cons_ne t hb]
      have ht : List.indexOf a t = j := by
        refine ih j (by simpa using hlt) (by simpa using hj) ?_
        intro k hk
        have := hmin (k + 1) (by omega)
        simpa using this
      omega

theorem gmwmo_first_max (h : List Nat) (hne : h ≠ []) (hnz : ∃ v ∈ h, v ≠ 0) :
    get_month_with_most_obs h = monthsList.getD (List.indexOf (pyMax h) h) "" := by
  have hnot : ¬ ((h.isEmpty || h.all fun v => v == 0) = true) := by
    simp only [Bool.or_eq_true, List.isEmpty_iff, List.all_eq_true, beq_iff_eq]
    rintro (h1 | h2)
    · exact hne h1
    · obtain ⟨v, hv, hv0⟩ := hnz
      exact hv0 (h2 v hv)
  unfold get_month_with_most_obs
  rw [if_neg hnot]

/-- C6: for every 12-element histogram with at least one non-zero value,
`get_month_with_most_obs` returns the month name at the first (lowest)
index attaining the maximum value, and for an all-zero histogram it
returns `"No data"`. -/
theorem C6_thm :
    (∀ (h : List Nat) (j : Nat), h.length = 12 → j < 12 →
        h.getD j 0 = pyMax h → (∀ k, k < j → h.getD k 0 ≠ pyMax h) →
        (∃ v ∈ h, v ≠ 0) →
        get_month_with_most_obs h = monthsList.getD j "") ∧
    (∀ h : List Nat, h.length = 12 → (∀ v ∈ h, v = 0) →
        get_month_with_most_obs h = "No data") := by
  constructor
  · intro h j hlen hj hmax hfirst hnz
    have hne : h ≠ [] := by
      intro hnil
      rw [hnil] at hlen
      simp at hlen
    rw [gmwmo_first_max h hne hnz,
        indexOf_of_first (pyMax h) h j (by omega) hmax hfirst]
  · intro h hlen hz
    unfold get_month_with_most_obs
    rw [if_pos]
    simp only [Bool.or_eq_true, List.all_eq_true, beq_iff_eq]
    right
    exact hz

/-- C6 (witness): the spec's example histogram `[0,0,5,5,0,...]` yields
`"March"` (first max wins at index 2), and the all-zero histogram yields
`"No data"`. -/
theorem C6_witness :
    (get_month_with_most_obs [0, 0, 5, 5, 0, 0, 0, 0, 0, 0, 0, 0] = monthsList.getD 2 "" ∧
     monthsList.getD 2 "" = "March") ∧
    get_month_with_most_obs (List.replicate 12 0) = "No data" :=
  ⟨⟨C6_thm.1 [0, 0, 5, 5, 0, 0, 0, 0, 0, 0, 0, 0] 2 (by decide) (by decide) (by decide)
      (by decide) (by decide), by decide⟩,
   C6_thm.2 (List.replicate 12 0) (by decide) (by decide)⟩

/- ### Report sorting -/

theorem filter_count_orderedInsert (c : Nat) (a : SpRow) :
    ∀ ys : List SpRow,
      (List.orderedInsert countGe a ys).filter (fun s => s.count == c)
        = (a :: ys).filter (fun s => s.count == c) := by
  intro ys
  induction ys with
  | nil => rfl
  | cons b t ih =>
    by_cases hab : countGe a b
    · rw [List.orderedInsert_of_le _ _ hab]
    · simp only [List.orderedInsert, if_neg hab]
      have hlt : a.count < b.count := by
        simp only [countGe, not_le] at hab
        exact hab
      by_cases hac : a.count = c
      · have hbc : (b.count == c) = false := by
          simp only [beq_eq_false_iff_ne, ne_eq]
          omega
        simp only [List.filter_cons, hbc, ih, beq_iff_eq, hac, if_pos rfl]
        simp [hac]
      · have hac2 : (a.count == c) = false := by
          simp only [beq_eq_false_iff_ne, ne_eq]
          exact hac
        simp only [List.filter_cons, ih, hac2]
        simp

theorem filter_count_sortRows (c : Nat) :
    ∀ l : List SpRow,
      (sortRows l).filter (fun s => s.count == c) = l.filter (fun s => s.count == c) := by
  intro l
  induction l with
  | nil => rfl
  | cons a t ih =>
    have hstep : sortRows (a :: t) = List.orderedInsert countGe a (sortRows t) := rfl
    rw [hstep, filter_count_orderedInsert, List.filter_cons, List.filter_cons, ih]

/-- C7: the emitted rows are the stable descending-by-count sort of the
finalized collection: the output is sorted by `count` descending, is a
permutation of the input, preserves the input's relative order among any
fixed count (stability), and on the spec's example (counts `[3,7,7,1]`
for `A,B,C,D`) yields `B,C,A,D`. -/
theorem C7_thm :
    (∀ l : List SpRow, (sortRows l).Sorted countGe) ∧
    (∀ l : List SpRow, List.Perm (sortRows l) l) ∧
    (∀ (l : List SpRow) (c : Nat),
        (sortRows l).filter (fun s => s.count == c) = l.filter (fun s => s.count == c)) ∧
    sortRows [⟨1, "A", 3⟩, ⟨2, "B", 7⟩, ⟨3, "C", 7⟩, ⟨4, "D", 1⟩]
      = [⟨2, "B", 7⟩, ⟨3, "C", 7⟩, ⟨1, "A", 3⟩, ⟨4, "D", 1⟩] :=
  ⟨fun l => List.sorted_insertionSort countGe l,
   fun l => List.perm_insertionSort countGe l,
   fun l c => filter_count_sortRows c l,
   by decide⟩

/- ### Histogram failure handling -/

/-- C8: a species whose individual histogram fetch raises is handled
locally: in the output of `get_histograms` its histogram is the all-zero
one, its `peak_month` is `"No data"`, its taxon id is in the per-species
warning list and its summary line is in the end-of-pass summary — and
`get_histograms` is a total function, so no such failure aborts the run. -/
theorem C8_thm (env : HistEnv) (species_data : List (Nat × SpData))
    (tid : Nat) (d : SpData)
    (hmem : (tid, d) ∈ species_data)
    (hzero : allZero d.histogram = true)
    (herr : ∃ e, env.histResp tid = Except.error e) :
    (tid, { d with histogram := List.replicate 12 0, peak_month := "No data" })
        ∈ (get_histograms env species_data).species ∧
    tid ∈ (get_histograms env species_data).fetch_warnings ∧
    summaryLine tid { d with histogram := List.replicate 12 0, peak_month := "No data" }
        ∈ (get_histograms env species_data).still_empty := by
  have hfetch : get_histogram_for_species (env.histResp tid) = List.replicate 12 0 := by
    obtain ⟨e, he⟩ := herr
    rw [he]
    rfl
  have hzmem : tid ∈ zero_histogram_species species_data :=
    List.mem_map.mpr ⟨(tid, d), List.mem_filter.mpr ⟨hmem, hzero⟩, rfl⟩
  have hupd : (tid, { d with histogram := List.replicate 12 0 })
      ∈ updatedSpecies env species_data := by
    refine List.mem_map.mpr ⟨(tid, d), hmem, ?_⟩
    simp only [hzmem, if_pos, hfetch]
  have hnodata : get_month_with_most_obs (List.replicate 12 0) = "No data" := by decide
  have hfin : (tid, { d with histogram := List.replicate 12 0, peak_month := "No data" })
      ∈ finalizedSpecies env species_data := by
    refine List.mem_map.mpr ⟨(tid, { d with histogram := List.replicate 12 0 }), hupd, ?_⟩
    simp only [hnodata]
  refine ⟨hfin, ?_, ?_⟩
  · exact List.mem_filter.mpr ⟨hzmem, by rw [hfetch]; decide⟩
  · have hpeak : ((fun p : Nat × SpData => p.2.peak_month == "No data")
        (tid, { d with histogram := List.replicate 12 0, peak_month := "No data" })) = true := by
      simp
    exact List.mem_map.mpr
      ⟨(tid, { d with histogram := List.replicate 12 0, peak_month := "No data" }),
       List.mem_filter.mpr ⟨hfin, hpeak⟩, rfl⟩

/-- C8 (witness): the statement at a concrete one-species run whose
histogram service always fails. -/
theorem C8_witness :
    (7, dSeastar) ∈ [(7, dSeastar)] ∧
    allZero dSeastar.histogram = true ∧
    ((7, { dSeastar with histogram := List.replicate 12 0, peak_month := "No data" })
        ∈ (get_histograms envHistFail [(7, dSeastar)]).species ∧
     7 ∈ (get_histograms envHistFail [(7, dSeastar)]).fetch_warnings ∧
     summaryLine 7 { dSeastar with histogram := List.replicate 12 0, peak_month := "No data" }
        ∈ (get_histograms envHistFail [(7, dSeastar)]).still_empty) :=
  ⟨by decide, by decide,
   C8_thm envHistFail [(7, dSeastar)] 7 dSeastar (by decide) (by decide)
     ⟨PyErr.other "ConnectionError", rfl⟩⟩

/- ### Short ancestor sequences -/

/-- C9: for every ancestor-id sequence with fewer than 2 elements,
`extract_taxonomy` returns `("Unknown","Unknown")`; for a sequence of
length exactly 2 the phylum is `"Unknown"` and the kingdom comes from the
hardcoded table keyed by the element at position 1, defaulting to
`"Unknown"` when absent — whatever the cache and service state. -/
theorem C9_thm (env : PhylaEnv) (cache : PhylaMap) (ids : List Nat)
    (hlen : ids.length ≤ 2) :
    (extract_taxonomy env cache ids).phylum = "Unknown" ∧
    (extract_taxonomy env cache ids).kingdom =
      (if ids.length < 2 then "Unknown"
       else (kingdom_ids.lookup (ids.getD 1 0)).getD "Unknown") := by
  constructor
  · show (if 2 < ids.length then _ else "Unknown") = "Unknown"
    rw [if_neg (by omega)]
  · show (if 1 < ids.length then
        ((kingdom_ids.lookup (ids.getD 1 0)).getD "Unknown") else "Unknown") = _
    by_cases h : ids.length < 2
    · rw [if_neg (by omega), if_pos h]
    · rw [if_pos (by omega), if_neg h]

/-- C9 (witness): the statement at the length-2 sequence `[48460, 1]`
(root, Animalia) over an empty cache. -/
theorem C9_witness :
    (([48460, 1] : List Nat).length ≤ 2) ∧
    ((extract_taxonomy envNoPhyla [] [48460, 1]).phylum = "Unknown" ∧
     (extract_taxonomy envNoPhyla [] [48460, 1]).kingdom =
       (if ([48460, 1] : List Nat).length < 2 then "Unknown"
        else (kingdom_ids.lookup (([48460, 1] : List Nat).getD 1 0)).getD "Unknown")) :=
  ⟨by decide, C9_thm envNoPhyla [] [48460, 1] (by decide)⟩
